import Mathlib

/-!
Verification of the CR6 community-firmware deterministic pause/resume core
(`M1125`), its saved-command filter, its heater idle-timeout watchdog, the
host-notification gating (`HostUI`), and the media mount state machine.

All definitions are shallow embeddings of the corresponding C++ sources:
machine times are `Nat` milliseconds, temperatures are `Int` whole degrees,
coordinates are `Rat`, and every observable side effect (moves, prompts,
heater disables, timer events) is recorded in an explicit event log.
-/

set_option maxRecDepth 4096
set_option maxHeartbeats 1000000

namespace M1125

/-- `BUFSIZE`: capacity of the G-code ring buffer (8 in the test config). -/
def BUFSIZE : Nat := 8

/-- Compile-time configuration constants used by the M1125 module. -/
structure Config where
  /-- `PAUSE_PARK_NOZZLE_TIMEOUT` (seconds). -/
  pause_park_nozzle_timeout : Nat
  /-- `M1125_TIMEOUT_GRACE_SECONDS`. -/
  timeout_grace_seconds : Nat
  /-- `TEMP_WINDOW` tolerance for hotends (whole degrees). -/
  temp_window : Int
  /-- `TEMP_BED_WINDOW` tolerance for the bed (whole degrees). -/
  temp_bed_window : Int
  /-- `NOZZLE_PARK_POINT` x coordinate. -/
  park_x : Rat
  /-- `NOZZLE_PARK_POINT` y coordinate. -/
  park_y : Rat
  deriving Repr, DecidableEq

/-- `m1125_upper`: ASCII upper-casing of a single character, as in the source. -/
def m1125_upper (c : Char) : Char :=
  if 'a' ≤ c ∧ c ≤ 'z' then Char.ofNat (c.toNat - 'a'.toNat + 'A'.toNat) else c

/-- The loop body of `m1125_command_matches` after leading spaces are skipped:
walk the target, comparing upper-cased command characters, then require the
tail to start with end-of-string, space, tab, or `;`. -/
def m1125_match_loop : List Char → List Char → Bool
  | cmd, [] =>
    match cmd with
    | [] => true
    | c :: _ => c = ' ' || c = '\t' || c = ';'
  | [], _ :: _ => false
  | c :: cs, t :: ts => if m1125_upper c = t then m1125_match_loop cs ts else false

/-- `m1125_command_matches(cmd, target)`: `false` for an empty command;
otherwise skip leading spaces and run the match loop. -/
def m1125_command_matches (cmd target : List Char) : Bool :=
  match cmd with
  | [] => false
  | _ :: _ => m1125_match_loop (cmd.dropWhile (· = ' ')) target

/-- `m1125_should_skip_saved_command`: an empty command is skipped; otherwise
the command is skipped when it matches `M600` or `M1125`. -/
def m1125_should_skip_saved_command (cmd : List Char) : Bool :=
  match cmd with
  | [] => true
  | _ :: _ =>
    m1125_command_matches cmd "M600".data || m1125_command_matches cmd "M1125".data

/-- Spec-side predicate (from the spec's words): the line, with its leading
spaces dropped, begins case-insensitively with `token` followed by
end-of-string, space, tab, or the comment marker `;`. -/
def spec_token_at_start (cmd token : List Char) : Bool :=
  ((cmd.take token.length).map m1125_upper = token) &&
  (match cmd.drop token.length with
   | [] => true
   | c :: _ => c = ' ' || c = '\t' || c = ';')

/-- One entry of the G-code ring buffer (`GCodeQueue::CommandLine`). -/
structure CommandLine where
  buffer : List Char
  skip_ok : Bool
  deriving Repr, DecidableEq, Inhabited

/-- The G-code ring buffer (`GCodeQueue::RingBuffer`): read/write indices and a
length over a fixed array of `BUFSIZE` command slots. -/
structure RingBuffer where
  length : Nat
  index_r : Nat
  index_w : Nat
  commands : List CommandLine
  deriving Repr, DecidableEq

/-- `RingBuffer::clear()`: reset length and both indices; payload slots stay. -/
def RingBuffer.clear (rb : RingBuffer) : RingBuffer :=
  { rb with length := 0, index_r := 0, index_w := 0 }

/-- `RingBuffer::advance_w()`: advance the write index (wrapping at `BUFSIZE`)
and increment the length. -/
def RingBuffer.advance_w (rb : RingBuffer) : RingBuffer :=
  { rb with
    index_w := if rb.index_w + 1 ≥ BUFSIZE then 0 else rb.index_w + 1,
    length := rb.length + 1 }

/-- The logical FIFO contents of the ring buffer: `length` entries starting at
the read index, wrapping modulo `BUFSIZE`. -/
def RingBuffer.toList (rb : RingBuffer) : List CommandLine :=
  (List.range rb.length).map fun i => rb.commands.getD ((rb.index_r + i) % BUFSIZE) default

/-- The ring-position computation of the snapshot loop: `pos = start + i`,
reduced by `BUFSIZE` once when it overflows (as in the source's
`if (pos >= BUFSIZE) pos -= BUFSIZE`). -/
def m1125_wrap (start i : Nat) : Nat :=
  if start + i ≥ BUFSIZE then start + i - BUFSIZE else start + i

/-- The pause-time snapshot loop: walk `fuel` entries of the ring starting at
logical offset `i` from `start`, skip entries matched by
`m1125_should_skip_saved_command`, and append the rest (capped at `BUFSIZE`)
to the saved-command accumulator. -/
def m1125_save_loop (cmds : List CommandLine) (start : Nat) :
    Nat → Nat → List CommandLine → List CommandLine
  | _, 0, acc => acc
  | i, fuel + 1, acc =>
    let src := cmds.getD (m1125_wrap start i) default
    let acc' :=
      if m1125_should_skip_saved_command src.buffer then acc
      else if acc.length < BUFSIZE then acc ++ [src] else acc
    m1125_save_loop cmds start (i + 1) fuel acc'

/-- The resume-time restore loop: copy each saved command into the slot at the
write index and `advance_w`, in saved order. -/
def m1125_restore_loop (rb : RingBuffer) : List CommandLine → RingBuffer
  | [] => rb
  | c :: rest =>
    let rb' := { rb with commands := rb.commands.set rb.index_w c }
    m1125_restore_loop rb'.advance_w rest

/-- A minimal per-heater idle timer (`LocalIdleTimer` in the source). -/
structure LocalIdleTimer where
  deadline_ms : Nat
  active : Bool
  timed_out : Bool
  deriving Repr, DecidableEq

/-- `LocalIdleTimer::start(ms)` at time `now`. -/
def LocalIdleTimer.start (now ms : Nat) : LocalIdleTimer :=
  { deadline_ms := now + ms, active := true, timed_out := false }

/-- `LocalIdleTimer::reset()`. -/
def LocalIdleTimer.reset : LocalIdleTimer :=
  { deadline_ms := 0, active := false, timed_out := false }

/-- `LocalIdleTimer::update()` at time `now`: latch `timed_out` once the
deadline has elapsed. -/
def LocalIdleTimer.update (now : Nat) (t : LocalIdleTimer) : LocalIdleTimer :=
  if !t.active || t.timed_out then t
  else if t.deadline_ms ≤ now then { t with timed_out := true, active := false }
  else t

/-- An XYZE position (`xyze_pos_t`). -/
structure Xyze where
  x : Rat
  y : Rat
  z : Rat
  e : Rat
  deriving Repr, DecidableEq, Inhabited

/-- Canonical print source (`PrintSource::Source`). -/
inductive Source where
  | none
  | host
  | sd
  deriving Repr, DecidableEq

/-- SD card collaborator state. -/
structure Card where
  fileOpen : Bool
  stillPrinting : Bool
  index : Nat
  deriving Repr, DecidableEq

/-- Observable side effects of the controller, recorded in an event log. -/
inductive Event where
  /-- `do_blocking_move_to` to the given XYZE target. -/
  | moveTo (x y z e : Rat)
  /-- `Nozzle::park`. -/
  | park
  /-- `BUZZ`. -/
  | buzz
  /-- `print_job_timer.pause()`. -/
  | jobTimerPause
  /-- `print_job_timer.start()`. -/
  | jobTimerStart
  /-- `hostui.prompt_open(PROMPT_PAUSE_RESUME, ...)`. -/
  | promptOpen
  /-- `hostui.pause()` host-integration pause notification. -/
  | hostPause
  /-- the heater-timeout popup (`m1125_post_timeout_popup`). -/
  | prompt
  /-- `thermalManager.disable_all_heaters()`. -/
  | disableHeaters
  /-- `card.startOrResumeFilePrinting()`. -/
  | cardStartOrResume
  /-- `ui.resume_print()`. -/
  | uiResumePrint
  deriving Repr, DecidableEq

/-- Discriminator for blocking-move events. -/
def Event.isMove : Event → Bool
  | .moveTo _ _ _ _ => true
  | _ => false

/-- Discriminator for the heater-timeout popup event. -/
def Event.isPrompt : Event → Bool
  | .prompt => true
  | _ => false

/-- Discriminator for the disable-all-heaters event. -/
def Event.isDisable : Event → Bool
  | .disableHeaters => true
  | _ => false

/-- Discriminator for the host pause notification event. -/
def Event.isHostPause : Event → Bool
  | .hostPause => true
  | _ => false

/-- Discriminator for the job-timer restart event. -/
def Event.isJobTimerStart : Event → Bool
  | .jobTimerStart => true
  | _ => false

/-- Count all blocking moves in a log. -/
def countMoves (l : List Event) : Nat := l.countP Event.isMove

/-- Count the heater-timeout popups in a log. -/
def countPrompts (l : List Event) : Nat := l.countP Event.isPrompt

/-- Count the forced heater disables in a log. -/
def countDisables (l : List Event) : Nat := l.countP Event.isDisable

/-- Count the host pause notifications in a log. -/
def countHostPauses (l : List Event) : Nat := l.countP Event.isHostPause

/-- Count the job-timer restarts in a log. -/
def countJobTimerStarts (l : List Event) : Nat := l.countP Event.isJobTimerStart

/-- Live thermal readings supplied by the environment at each call
(`wholeDegHotend(0)` / `wholeDegBed()`). -/
structure Env where
  hotend_whole : Int
  bed_whole : Int
  deriving Repr, DecidableEq

/-- The whole controller-visible state: the file-scope statics of the M1125
module plus the collaborators it mutates (print source, card, queue, heater
targets, position) and the event log. -/
structure Sys where
  saved_position : Xyze
  have_saved_position : Bool
  pause_active : Bool
  heaters_disabled_by_timeout : Bool
  timeout_pending : Bool
  timeout_deadline_ms : Nat
  timeout_old_remaining_at_continue : Nat
  continue_pressed : Bool
  resume_pending : Bool
  resume_do_sd : Bool
  resume_do_host : Bool
  resume_feedrate : Rat
  suppress_auto_job_timer : Bool
  saved_commands : List CommandLine
  hotend_idle : LocalIdleTimer
  bed_idle : LocalIdleTimer
  saved_target_hotend : Int
  saved_target_bed : Int
  printSource : Source
  card : Card
  queue : RingBuffer
  hotend_target : Int
  bed_target : Int
  pos : Xyze
  suppress_popup_pause_response : Bool
  events : List Event
  deriving Repr, DecidableEq

/-- Pause phase 1: print-source recording, the two suppression tokens, the SD
rewind-and-clear queue snapshot, job-timer pause, and the position save. -/
def m1125_pause_snapshot (sd_printing : Bool) (s : Sys) : Sys :=
  let s :=
    if sd_printing then { s with printSource := Source.sd }
    else { s with printSource := Source.host }
  let s := { s with suppress_popup_pause_response := true }
  let s := { s with suppress_auto_job_timer := true }
  let s :=
    if sd_printing then
      let saved_sd_index := s.card.index
      let s := { s with card := { s.card with stillPrinting := false } }
      let saved := m1125_save_loop s.queue.commands s.queue.index_r 0 s.queue.length []
      let s := { s with saved_commands := saved, queue := s.queue.clear }
      { s with card := { s.card with index := saved_sd_index } }
    else s
  let s := { s with events := s.events ++ [Event.jobTimerPause] }
  { s with saved_position := s.pos, have_saved_position := true }

/-- Pause phase 2: the blocking retract (E-2, Z+0.2) and XY wipe moves, the
park move, and the six beeps. -/
def m1125_pause_park_moves (cfg : Config) (s : Sys) : Sys :=
  let retractTarget : Xyze := { s.pos with z := s.pos.z + 1/5, e := s.pos.e - 2 }
  let s := { s with
    events := s.events ++
      [Event.moveTo retractTarget.x retractTarget.y retractTarget.z retractTarget.e],
    pos := retractTarget }
  let wipeTarget : Xyze := { s.pos with x := 5, y := 5 }
  let s := { s with
    events := s.events ++
      [Event.moveTo wipeTarget.x wipeTarget.y wipeTarget.z wipeTarget.e],
    pos := wipeTarget }
  let s := { s with
    events := s.events ++ [Event.park],
    pos := { s.pos with x := cfg.park_x, y := cfg.park_y } }
  { s with events := s.events ++
      [Event.buzz, Event.buzz, Event.buzz, Event.buzz, Event.buzz, Event.buzz] }

/-- Pause phase 3: save the live heater targets, start both idle timers, mark
the pause active, and run the SD-specific tail with its host-notification
gating (the `hostui.pause()` call sits under `if (!sd_printing)` inside the
SD-only block, as in the source). -/
def m1125_pause_arm (cfg : Config) (now : Nat) (sd_printing : Bool) (s : Sys) : Sys :=
  let nozzle_timeout := cfg.pause_park_nozzle_timeout * 1000
  let s := { s with
    saved_target_hotend := s.hotend_target,
    hotend_idle := LocalIdleTimer.start now nozzle_timeout,
    saved_target_bed := s.bed_target,
    bed_idle := LocalIdleTimer.start now nozzle_timeout }
  let s := { s with pause_active := true, heaters_disabled_by_timeout := false }
  if sd_printing then
    let s := { s with events := s.events ++ [Event.promptOpen] }
    if !sd_printing then { s with events := s.events ++ [Event.hostPause] } else s
  else s

/-- The pause branch of `GcodeSuite::M1125` (`M1125 P`): duplicate-pause guard,
then the three pause phases. -/
def M1125_P (cfg : Config) (now : Nat) (s : Sys) : Sys :=
  let sd_printing := s.card.fileOpen && s.card.stillPrinting
  if s.pause_active then s
  else
    m1125_pause_arm cfg now sd_printing
      (m1125_pause_park_moves cfg (m1125_pause_snapshot sd_printing s))

/-- Resume finalize, first half: the blocking return move to the saved XYZ
(guarded by the saved-position flag, E restored only for SD), then clearing
the auto-job-timer suppression and the saved targets. -/
def m1125_finalize_position (s : Sys) : Sys :=
  let s :=
    if s.have_saved_position then
      let s := { s with
        events := s.events ++
          [Event.moveTo s.saved_position.x s.saved_position.y s.saved_position.z s.pos.e],
        pos := { x := s.saved_position.x, y := s.saved_position.y,
                 z := s.saved_position.z, e := s.pos.e } }
      let s :=
        if s.resume_do_sd then { s with pos := { s.pos with e := s.saved_position.e } }
        else s
      { s with have_saved_position := false }
    else s
  let s := { s with suppress_auto_job_timer := false }
  { s with saved_target_hotend := 0, saved_target_bed := 0 }

/-- Resume finalize, second half: reinsert the saved commands and restart an
SD print, or notify a host resume; restart the job timer; release the popup
suppression; clear the pause bookkeeping. -/
def m1125_finalize_actions (s : Sys) : Sys :=
  let s :=
    if s.resume_do_sd then
      if !s.card.stillPrinting then
        let s :=
          if s.saved_commands.length ≠ 0 then
            { s with queue := m1125_restore_loop s.queue s.saved_commands,
                     saved_commands := [] }
          else s
        let s := { s with printSource := Source.sd }
        { s with
          card := { s.card with stillPrinting := true },
          events := s.events ++ [Event.cardStartOrResume] }
      else s
    else s
  let s :=
    if s.resume_do_host then
      { s with printSource := Source.host, events := s.events ++ [Event.uiResumePrint] }
    else s
  let s := { s with events := s.events ++ [Event.jobTimerStart] }
  let s := { s with suppress_popup_pause_response := false }
  { s with pause_active := false, heaters_disabled_by_timeout := false }

/-- `m1125_poll_resume()`: a pending resume waits until every saved heater
target is within its tolerance window, then runs the two finalize halves. -/
def m1125_poll_resume (cfg : Config) (env : Env) (s : Sys) : Sys × Bool :=
  if !s.resume_pending then (s, false)
  else if s.saved_target_hotend > 0 ∧
      |env.hotend_whole - s.saved_target_hotend| > cfg.temp_window then
    (s, false)
  else if s.saved_target_bed > 0 ∧
      |env.bed_whole - s.saved_target_bed| > cfg.temp_bed_window then
    (s, false)
  else
    (m1125_finalize_actions (m1125_finalize_position { s with resume_pending := false }), true)

/-- `M1125_CheckAndHandleHeaterTimeout()` at time `now`: the two-stage
watchdog (first expiry posts the popup once and arms the grace deadline;
an elapsed grace deadline refreshes saved targets and disables all heaters
once), then the resume poll. Returns `true` iff this call disabled heaters. -/
def M1125_Check (cfg : Config) (env : Env) (now : Nat) (s : Sys) : Sys × Bool :=
  if !s.pause_active then (s, false)
  else
    let s := { s with
      hotend_idle := s.hotend_idle.update now,
      bed_idle := s.bed_idle.update now }
    let any_timed_out := s.hotend_idle.timed_out || s.bed_idle.timed_out
    if any_timed_out && !s.heaters_disabled_by_timeout && !s.timeout_pending then
      let s := { s with
        timeout_pending := true,
        timeout_deadline_ms := now + cfg.timeout_grace_seconds * 1000,
        continue_pressed := false,
        timeout_old_remaining_at_continue := 0,
        events := s.events ++ [Event.prompt] }
      (s, false)
    else if s.timeout_pending && !s.heaters_disabled_by_timeout &&
        s.timeout_deadline_ms ≤ now then
      let s := { s with
        saved_target_hotend := s.hotend_target,
        saved_target_bed := s.bed_target }
      let s := { s with
        hotend_target := 0, bed_target := 0,
        events := s.events ++ [Event.disableHeaters] }
      let s := { s with
        heaters_disabled_by_timeout := true,
        timeout_pending := false,
        continue_pressed := false }
      ((m1125_poll_resume cfg env s).1, true)
    else
      ((m1125_poll_resume cfg env s).1, false)

/-- The optional `F` feedrate override of `M1125 R` (mm/min converted to
mm/s). -/
def m1125_apply_feed : Option Rat → Sys → Sys
  | some f, s => { s with resume_feedrate := f / 60 }
  | none, s => s

/-- The resume branch of `GcodeSuite::M1125` (`M1125 R`): optional feedrate
override, idle-timer reset, unconditional re-application of saved targets,
resume routing from the canonical print source, and an immediate watchdog
poll. -/
def M1125_R (cfg : Config) (env : Env) (now : Nat) (feed : Option Rat) (s : Sys) : Sys :=
  let s := m1125_apply_feed feed s
  let s := { s with
    hotend_idle := LocalIdleTimer.reset,
    bed_idle := LocalIdleTimer.reset,
    hotend_target :=
      if s.saved_target_hotend > 0 then s.saved_target_hotend else s.hotend_target,
    bed_target :=
      if s.saved_target_bed > 0 then s.saved_target_bed else s.bed_target }
  let s := { s with
    resume_pending := true,
    resume_do_sd := s.printSource = Source.sd,
    resume_do_host := s.printSource = Source.host }
  (M1125_Check cfg env now s).1

/-- `M1125_TimeoutRemainingSeconds()`: ceiling of the remaining grace window in
seconds, floored at 0, and 0 when no timeout is pending. -/
def M1125_TimeoutRemainingSeconds (now : Nat) (s : Sys) : Nat :=
  if !s.timeout_pending then 0
  else if now < s.timeout_deadline_ms then (s.timeout_deadline_ms - now + 999) / 1000
  else 0

/-- `M1125_TimeoutContinueRecovery()`: re-apply positive saved targets,
restart both idle timers, and clear the disabled-by-timeout flag. -/
def M1125_TimeoutContinueRecovery (cfg : Config) (now : Nat) (s : Sys) : Sys :=
  let nozzle_timeout := cfg.pause_park_nozzle_timeout * 1000
  let s :=
    if s.saved_target_hotend > 0 then { s with hotend_target := s.saved_target_hotend }
    else s
  let s := { s with hotend_idle := LocalIdleTimer.start now nozzle_timeout }
  let s :=
    if s.saved_target_bed > 0 then { s with bed_target := s.saved_target_bed }
    else s
  let s := { s with bed_idle := LocalIdleTimer.start now nozzle_timeout }
  { s with heaters_disabled_by_timeout := false }

/-- `M1125_TimeoutContinue()`: with a pending timeout, record the remaining
seconds plus one full interval and extend the grace deadline by one full
`PAUSE_PARK_NOZZLE_TIMEOUT`; without one, recover if heaters were disabled. -/
def M1125_TimeoutContinue (cfg : Config) (now : Nat) (s : Sys) : Sys :=
  if !s.timeout_pending then
    if s.heaters_disabled_by_timeout then M1125_TimeoutContinueRecovery cfg now s
    else s
  else
    let oldRemaining := M1125_TimeoutRemainingSeconds now s + cfg.pause_park_nozzle_timeout
    { s with
      timeout_old_remaining_at_continue := oldRemaining,
      timeout_deadline_ms := s.timeout_deadline_ms + cfg.pause_park_nozzle_timeout * 1000,
      continue_pressed := true }

/-- The shipped configuration: `PAUSE_PARK_NOZZLE_TIMEOUT` 300 s,
`M1125_TIMEOUT_GRACE_SECONDS` 30 s, one-degree temperature windows, park at
the origin. -/
def demoConfig : Config := ⟨300, 30, 1, 1, 0, 0⟩

/-- Live temperatures sitting exactly at the demo targets. -/
def demoEnv : Env := ⟨200, 60⟩

/-- A clean host-driven printing state, about to be paused. -/
def demoStart : Sys :=
  { saved_position := default, have_saved_position := false,
    pause_active := false, heaters_disabled_by_timeout := false,
    timeout_pending := false, timeout_deadline_ms := 0,
    timeout_old_remaining_at_continue := 0, continue_pressed := false,
    resume_pending := false, resume_do_sd := false, resume_do_host := false,
    resume_feedrate := 50, suppress_auto_job_timer := false,
    saved_commands := [], hotend_idle := LocalIdleTimer.reset,
    bed_idle := LocalIdleTimer.reset, saved_target_hotend := 0,
    saved_target_bed := 0, printSource := Source.none,
    card := ⟨false, false, 0⟩, queue := ⟨0, 0, 0, []⟩,
    hotend_target := 200, bed_target := 60, pos := ⟨110, 110, 10, 500⟩,
    suppress_popup_pause_response := false, events := [] }

/-- The state of the watchdog scenario after pausing at t=0 and polling at
t=300 s: the prompt has fired and the 30 s grace deadline is armed. -/
def demoPrompted : Sys :=
  (M1125_Check demoConfig demoEnv 300000 (M1125_P demoConfig 0 demoStart)).1

/-- Fold `M1125_Check` over a list of poll times. -/
def pollMany (cfg : Config) (env : Env) (ts : List Nat) (s : Sys) : Sys :=
  ts.foldl (fun s t => (M1125_Check cfg env t s).1) s

end M1125

namespace HostUI

/-- State touched by the host-notification hooks: the canonical print source,
the emitted `//action:` lines, and the commands injected into the queue. -/
structure HSys where
  printSource : M1125.Source
  actions : List (List Char)
  injected : List (List Char)
  deriving Repr, DecidableEq

/-- `ACTION_ON_PAUSE` (the default Marlin host action name). -/
def ACTION_ON_PAUSE : List Char := "pause".data

/-- `HostUI::action`: emit one `//action:` line, silenced entirely whenever
the canonical print source is SD. -/
def action (name : List Char) (s : HSys) : HSys :=
  if s.printSource = M1125.Source.sd then s
  else { s with actions := s.actions ++ [name] }

/-- `HostUI::pause`: return untouched for canonical SD prints; otherwise emit
the pause action line, and when a host serial connection exists, flip the
canonical source to Host (unless it is SD) and inject a single `M1125 P`. -/
def pause (host_serial_connected : Bool) (s : HSys) : HSys :=
  if s.printSource = M1125.Source.sd then s
  else
    let s := action ACTION_ON_PAUSE s
    if host_serial_connected then
      let s :=
        if ¬(s.printSource = M1125.Source.sd) then { s with printSource := M1125.Source.host }
        else s
      { s with injected := s.injected ++ ["M1125 P".data] }
    else s

end HostUI

namespace Media

/-- `MEDIA_BOOT`: at boot the previous observation is unknown. -/
def MEDIA_BOOT : Int := -1

/-- `INSERT_NONE`: no media detected. -/
def INSERT_NONE : Int := 0

/-- `INSERT_MEDIA`: generic media detected. -/
def INSERT_MEDIA : Int := 1

/-- `INSERT_SD`: SD card detected (multi-volume). -/
def INSERT_SD : Int := 2

/-- `INSERT_USB`: USB flash drive detected (multi-volume). -/
def INSERT_USB : Int := 4

/-- State of the media mount state machine and its mock collaborators, as in
`test_sd_mount.cpp`. -/
structure MSys where
  prev_stat : Int
  mounted : Bool
  mount_will_succeed : Bool
  ui_detected : Bool
  sdprinting : Bool
  pending_print_start : Bool
  abort_sd_printing : Bool
  mount_call_count : Nat
  release_call_count : Nat
  abort_call_count : Nat
  media_changed_calls : Nat
  message_count : Nat
  deriving Repr, DecidableEq

/-- `MockCardReader::mount()`. -/
def mount (s : MSys) : MSys :=
  { s with
    mount_call_count := s.mount_call_count + 1,
    mounted := s.mount_will_succeed }

/-- `MockCardReader::abortFilePrint()`. -/
def abortFilePrint (s : MSys) : MSys :=
  { s with
    abort_call_count := s.abort_call_count + 1,
    abort_sd_printing := true,
    sdprinting := false,
    pending_print_start := false }

/-- `MockCardReader::release()`: abort first when a print is active or a
print-start is pending, then unmount. -/
def release (s : MSys) : MSys :=
  let s := { s with release_call_count := s.release_call_count + 1 }
  let s := if s.sdprinting || s.pending_print_start then abortFilePrint s else s
  { s with mounted := false }

/-- `MockUI::media_changed`: one notification per transition; count a removal
message when the old level is real (post-boot) and the new level is lower. -/
def media_changed (old_status new_status : Int) (s : MSys) : MSys :=
  let s := { s with media_changed_calls := s.media_changed_calls + 1 }
  if old_status > MEDIA_BOOT ∧ new_status < old_status then
    { s with message_count := s.message_count + 1 }
  else s

/-- `manage_media_simplified`: edge detection against the previously observed
level, with the boot sentinel mapped to `INSERT_NONE` for comparisons, mount
on insertion (only from a real previous level, reverting the reported level
on mount failure), release on removal, and one UI notification. -/
def manage_media (stat : Int) (s : MSys) : MSys :=
  if stat = s.prev_stat then s
  else if !s.ui_detected then s
  else
    let old_stat := s.prev_stat
    let old_real := if old_stat = MEDIA_BOOT then INSERT_NONE else old_stat
    let s := { s with prev_stat := stat }
    let did_insert := stat ≠ INSERT_NONE ∧ stat > old_real
    if did_insert then
      let s := if ¬s.mounted ∧ old_stat > MEDIA_BOOT then mount s else s
      let stat' := if ¬s.mounted then old_real else stat
      media_changed old_stat stat' s
    else if stat < old_real then
      media_changed old_stat stat (release s)
    else
      media_changed old_stat stat s

end Media


/-! ## Theorems -/

open M1125

namespace M1125

theorem countP_append (p : Event → Bool) (l₁ l₂ : List Event) :
    (l₁ ++ l₂).countP p = l₁.countP p + l₂.countP p :=
  List.countP_append p l₁ l₂

theorem m1125_match_loop_eq_spec (target : List Char) :
    ∀ cmd : List Char, m1125_match_loop cmd target = spec_token_at_start cmd target := by
  induction target with
  | nil =>
    intro cmd
    cases cmd with
    | nil => rfl
    | cons c cs => simp [m1125_match_loop, spec_token_at_start]
  | cons t ts ih =>
    intro cmd
    cases cmd with
    | nil => simp [m1125_match_loop, spec_token_at_start]
    | cons c cs =>
      simp only [m1125_match_loop, spec_token_at_start, List.take, List.map, List.drop,
        List.length_cons]
      by_cases h : m1125_upper c = t
      · simp [h, ih cs, spec_token_at_start]
      · simp [h]

end M1125

/-- C3: a saved command line is dropped exactly when, after skipping leading
spaces, it begins (case-insensitively) with `M600` or `M1125` followed by
end-of-string, space, tab, or the comment marker; a filtered token elsewhere
in the line never causes a drop, and the saved set
`["M600", "G1 X5", "m1125 p"]` filters to `["G1 X5"]`. -/
theorem m1125_filter_anchored_at_token_start (cmd : List Char) (h : cmd ≠ []) :
    (m1125_should_skip_saved_command cmd =
      (spec_token_at_start (cmd.dropWhile (· = ' ')) "M600".data ||
       spec_token_at_start (cmd.dropWhile (· = ' ')) "M1125".data)) ∧
    ["M600".data, "G1 X5".data, "m1125 p".data].filter
        (fun c => !m1125_should_skip_saved_command c) = ["G1 X5".data] := by
  constructor
  · cases cmd with
    | nil => exact absurd rfl h
    | cons c cs =>
      simp only [m1125_should_skip_saved_command, m1125_command_matches,
        m1125_match_loop_eq_spec]
  · decide

theorem m1125_filter_anchored_at_token_start_witness :
    m1125_should_skip_saved_command "m1125 p".data =
      (spec_token_at_start ("m1125 p".data.dropWhile (· = ' ')) "M600".data ||
       spec_token_at_start ("m1125 p".data.dropWhile (· = ' ')) "M1125".data) :=
  (m1125_filter_anchored_at_token_start "m1125 p".data (by decide)).1

/-- C7: a second pause request while a pause is already active is rejected
before any mutation — the whole controller state, in particular the print
source, the saved position, the saved command set, and the saved heater
targets recorded by the first request, is returned unchanged. -/
theorem m1125_duplicate_pause_no_mutation (cfg : Config) (now : Nat) (s : Sys)
    (h : s.pause_active = true) :
    M1125_P cfg now s = s ∧
    (M1125_P cfg now s).printSource = s.printSource ∧
    (M1125_P cfg now s).saved_position = s.saved_position ∧
    (M1125_P cfg now s).saved_commands = s.saved_commands ∧
    (M1125_P cfg now s).saved_target_hotend = s.saved_target_hotend ∧
    (M1125_P cfg now s).saved_target_bed = s.saved_target_bed := by
  have hP : M1125_P cfg now s = s := by
    simp [M1125_P, h]
  exact ⟨hP, by rw [hP], by rw [hP], by rw [hP], by rw [hP], by rw [hP]⟩

namespace Media

theorem media_changed_mount_count (a b : Int) (s : MSys) :
    (media_changed a b s).mount_call_count = s.mount_call_count := by
  simp only [media_changed]
  split_ifs <;> rfl

theorem media_changed_message_count (a b : Int) (s : MSys) :
    (media_changed a b s).message_count =
      (if a > MEDIA_BOOT ∧ b < a then s.message_count + 1 else s.message_count) := by
  simp only [media_changed]
  split_ifs <;> rfl

theorem release_mount_count (s : MSys) :
    (release s).mount_call_count = s.mount_call_count := by
  simp only [release, abortFilePrint]
  split_ifs <;> rfl

theorem release_message_count (s : MSys) :
    (release s).message_count = s.message_count := by
  simp only [release, abortFilePrint]
  split_ifs <;> rfl

end Media

namespace Media

theorem mount_mount_count (s : MSys) :
    (mount s).mount_call_count = s.mount_call_count + 1 := rfl

theorem manage_media_mount_count (stat : Int) (s : MSys) :
    (manage_media stat s).mount_call_count =
      (if stat ≠ s.prev_stat ∧ s.ui_detected = true ∧ stat ≠ INSERT_NONE ∧
          stat > (if s.prev_stat = MEDIA_BOOT then INSERT_NONE else s.prev_stat) ∧
          ¬s.mounted ∧ s.prev_stat > MEDIA_BOOT
       then s.mount_call_count + 1 else s.mount_call_count) := by
  unfold manage_media
  by_cases h1 : stat = s.prev_stat
  · simp [h1]
  · by_cases h2 : s.ui_detected
    · simp only [h1, h2, if_false, if_true, Bool.not_true, Bool.false_eq_true,
        ite_false, ite_true, media_changed_mount_count, release_mount_count, ne_eq,
        not_false_eq_true, true_and]
      split_ifs <;> simp_all [media_changed_mount_count, release_mount_count, mount]
    · simp [h1, h2]

end Media

namespace Media

theorem manage_media_message_count_boot (stat : Int) (s : MSys)
    (hboot : s.prev_stat = MEDIA_BOOT) :
    (manage_media stat s).message_count = s.message_count := by
  unfold manage_media
  by_cases h1 : stat = s.prev_stat
  · simp [h1]
  · by_cases h2 : s.ui_detected
    · simp only [h1, h2, hboot, if_false, if_true, Bool.not_true, Bool.false_eq_true,
        ite_false, ite_true, ne_eq, not_false_eq_true, true_and]
      split_ifs <;>
        simp_all [media_changed_message_count, release_message_count, mount, lt_irrefl]
    · simp [h1, h2]

end Media

/-- C9: a media-presence poll whose previous observation is the boot sentinel
never produces a removal notification and never invokes mount; in general,
mount is invoked only on an insertion edge (a level strictly above the
previous one, other than the empty level) whose previous observation is a
real (post-boot) level. -/
theorem media_boot_sentinel_safe (s : Media.MSys) (stat : Int) :
    (s.prev_stat = Media.MEDIA_BOOT →
      (Media.manage_media stat s).message_count = s.message_count ∧
      (Media.manage_media stat s).mount_call_count = s.mount_call_count) ∧
    ((Media.manage_media stat s).mount_call_count ≠ s.mount_call_count →
      s.prev_stat > Media.MEDIA_BOOT ∧ stat > s.prev_stat ∧ stat ≠ Media.INSERT_NONE) := by
  constructor
  · intro hboot
    refine ⟨Media.manage_media_message_count_boot stat s hboot, ?_⟩
    rw [Media.manage_media_mount_count]
    rw [if_neg]
    intro h
    rw [hboot] at h
    exact absurd h.2.2.2.2.2 (lt_irrefl _)
  · intro hmount
    rw [Media.manage_media_mount_count] at hmount
    by_cases h : stat ≠ s.prev_stat ∧ s.ui_detected = true ∧ stat ≠ Media.INSERT_NONE ∧
        stat > (if s.prev_stat = Media.MEDIA_BOOT then Media.INSERT_NONE
                else s.prev_stat) ∧ ¬s.mounted ∧ s.prev_stat > Media.MEDIA_BOOT
    · have hreal : ¬(s.prev_stat = Media.MEDIA_BOOT) := by
        intro hb
        rw [hb] at h
        exact absurd h.2.2.2.2.2 (lt_irrefl _)
      refine ⟨h.2.2.2.2.2, ?_, h.2.2.1⟩
      have := h.2.2.2.1
      rwa [if_neg hreal] at this
    · rw [if_neg h] at hmount
      exact absurd rfl hmount

theorem media_boot_sentinel_safe_witness :
    (Media.manage_media Media.INSERT_MEDIA
        { prev_stat := Media.MEDIA_BOOT, mounted := false, mount_will_succeed := true,
          ui_detected := true, sdprinting := false, pending_print_start := false,
          abort_sd_printing := false, mount_call_count := 0, release_call_count := 0,
          abort_call_count := 0, media_changed_calls := 0,
          message_count := 0 }).mount_call_count = 0 :=
  ((media_boot_sentinel_safe _ Media.INSERT_MEDIA).1 rfl).2

/-- C10: the host pause hook: for a non-SD canonical source with a host
serial connection, exactly one `M1125 P` command is injected and the source
is set to Host; without a connection nothing is injected and the source is
unchanged; for an SD canonical source the hook mutates nothing at all. -/
theorem hostui_pause_injects_once (c : Bool) (s : HostUI.HSys) :
    (s.printSource ≠ Source.sd → c = true →
      (HostUI.pause c s).injected = s.injected ++ ["M1125 P".data] ∧
      (HostUI.pause c s).printSource = Source.host) ∧
    (s.printSource ≠ Source.sd → c = false →
      (HostUI.pause c s).injected = s.injected ∧
      (HostUI.pause c s).printSource = s.printSource) ∧
    (s.printSource = Source.sd → HostUI.pause c s = s) := by
  refine ⟨?_, ?_, ?_⟩
  · intro hs hc
    subst hc
    simp [HostUI.pause, HostUI.action, hs]
  · intro hs hc
    subst hc
    simp [HostUI.pause, HostUI.action, hs]
  · intro hs
    simp [HostUI.pause, hs]

theorem hostui_pause_injects_once_witness :
    (HostUI.pause true
        { printSource := Source.host, actions := [], injected := [] }).injected =
      [] ++ ["M1125 P".data] :=
  ((hostui_pause_injects_once true
      { printSource := Source.host, actions := [], injected := [] }).1
    (by decide) rfl).1

namespace M1125

theorem pause_snapshot_events (b : Bool) (s : Sys) :
    (m1125_pause_snapshot b s).events = s.events ++ [Event.jobTimerPause] := by
  cases b <;> simp [m1125_pause_snapshot]

theorem pause_park_moves_hostPauses (cfg : Config) (s : Sys) :
    countHostPauses (m1125_pause_park_moves cfg s).events = countHostPauses s.events := by
  simp [m1125_pause_park_moves, countHostPauses, List.countP_append, List.countP_cons,
    Event.isHostPause]

theorem pause_arm_hostPauses (cfg : Config) (now : Nat) (b : Bool) (s : Sys) :
    countHostPauses (m1125_pause_arm cfg now b s).events = countHostPauses s.events := by
  cases b <;>
    simp [m1125_pause_arm, countHostPauses, List.countP_append, List.countP_cons,
      Event.isHostPause]

theorem M1125_P_hostPauses (cfg : Config) (now : Nat) (s : Sys) :
    countHostPauses (M1125_P cfg now s).events = countHostPauses s.events := by
  unfold M1125_P
  by_cases h : s.pause_active
  · simp [h]
  · simp only [h, Bool.false_eq_true, if_false, ite_false]
    rw [pause_arm_hostPauses, pause_park_moves_hostPauses, pause_snapshot_events]
    simp [countHostPauses, List.countP_append, List.countP_cons, Event.isHostPause]

end M1125

/-- C8: host-integration pause notification gating: a generic host-action
line is suppressed whenever the canonical print source is onboard media; the
`HostUI::pause` hook mutates nothing for an SD source; and the M1125 pause
path itself never emits a host pause notification (so in particular it emits
one only when the recorded source is not onboard media). -/
theorem sd_pause_suppresses_host_notification :
    (∀ (n : List Char) (s : HostUI.HSys),
      s.printSource = Source.sd → HostUI.action n s = s) ∧
    (∀ (c : Bool) (s : HostUI.HSys),
      s.printSource = Source.sd → HostUI.pause c s = s) ∧
    (∀ (cfg : Config) (now : Nat) (s : Sys),
      countHostPauses (M1125_P cfg now s).events = countHostPauses s.events) := by
  refine ⟨?_, ?_, ?_⟩
  · intro n s hs
    simp [HostUI.action, hs]
  · intro c s hs
    simp [HostUI.pause, hs]
  · intro cfg now s
    exact M1125.M1125_P_hostPauses cfg now s

theorem sd_pause_suppresses_host_notification_witness :
    HostUI.action "pause".data
        { printSource := Source.sd, actions := [], injected := [] } =
      { printSource := Source.sd, actions := [], injected := [] } :=
  sd_pause_suppresses_host_notification.1 "pause".data
    { printSource := Source.sd, actions := [], injected := [] } rfl

namespace M1125

theorem finalize_position_resume_pending (s : Sys) :
    (m1125_finalize_position s).resume_pending = s.resume_pending := by
  simp only [m1125_finalize_position]
  split_ifs <;> rfl

theorem finalize_actions_resume_pending (s : Sys) :
    (m1125_finalize_actions s).resume_pending = s.resume_pending := by
  simp only [m1125_finalize_actions]
  split_ifs <;> rfl

theorem finalize_actions_pause_active (s : Sys) :
    (m1125_finalize_actions s).pause_active = false := by
  simp [m1125_finalize_actions]

theorem finalize_position_jobTimerStarts (s : Sys) :
    countJobTimerStarts (m1125_finalize_position s).events
      = countJobTimerStarts s.events := by
  simp only [m1125_finalize_position]
  split_ifs <;>
    simp [countJobTimerStarts, List.countP_append, List.countP_cons, Event.isJobTimerStart]

theorem finalize_actions_jobTimerStarts (s : Sys) :
    countJobTimerStarts (m1125_finalize_actions s).events
      = countJobTimerStarts s.events + 1 := by
  simp only [m1125_finalize_actions]
  split_ifs <;>
    simp [countJobTimerStarts, List.countP_append, List.countP_cons, Event.isJobTimerStart]

theorem finalize_position_events_no_flag (s : Sys) (h : s.have_saved_position = false) :
    (m1125_finalize_position s).events = s.events := by
  simp [m1125_finalize_position, h]

theorem finalize_actions_moves (s : Sys) :
    countMoves (m1125_finalize_actions s).events = countMoves s.events := by
  simp only [m1125_finalize_actions]
  split_ifs <;>
    simp [countMoves, List.countP_append, List.countP_cons, Event.isMove]

theorem poll_resume_not_pending (cfg : Config) (env : Env) (s : Sys)
    (h : s.resume_pending = false) :
    m1125_poll_resume cfg env s = (s, false) := by
  simp [m1125_poll_resume, h]

theorem poll_resume_finalize_char (cfg : Config) (env : Env) (s : Sys)
    (h2 : (m1125_poll_resume cfg env s).2 = true) :
    (m1125_poll_resume cfg env s).1 =
      m1125_finalize_actions (m1125_finalize_position { s with resume_pending := false }) := by
  unfold m1125_poll_resume at h2 ⊢
  split_ifs at h2 ⊢
  simp_all

end M1125

/-- C1: resume gating: while any saved heater target is outside its tolerance
window, a resume poll returns the state untouched (no return move, the
pause-active flag is not cleared); when the poll finalizes, it clears the
resume-pending flag, clears the pause-active flag, restarts the job timer
exactly once, and a second poll is a no-op (the finalize sequence runs
exactly once); and without a valid saved-position flag the poll never emits
a return move. -/
theorem m1125_resume_gating (cfg cfg' : Config) (env env' : Env) (s : Sys) :
    (s.resume_pending = true →
      ((s.saved_target_hotend > 0 ∧
          |env.hotend_whole - s.saved_target_hotend| > cfg.temp_window) ∨
       (s.saved_target_bed > 0 ∧
          |env.bed_whole - s.saved_target_bed| > cfg.temp_bed_window)) →
      m1125_poll_resume cfg env s = (s, false)) ∧
    ((m1125_poll_resume cfg env s).2 = true →
      (m1125_poll_resume cfg env s).1.resume_pending = false ∧
      (m1125_poll_resume cfg env s).1.pause_active = false ∧
      countJobTimerStarts (m1125_poll_resume cfg env s).1.events
        = countJobTimerStarts s.events + 1 ∧
      m1125_poll_resume cfg' env' (m1125_poll_resume cfg env s).1
        = ((m1125_poll_resume cfg env s).1, false)) ∧
    (s.have_saved_position = false →
      countMoves (m1125_poll_resume cfg env s).1.events = countMoves s.events) := by
  refine ⟨?_, ?_, ?_⟩
  · intro hp hout
    by_cases hh : s.saved_target_hotend > 0 ∧
        |env.hotend_whole - s.saved_target_hotend| > cfg.temp_window
    · simp [m1125_poll_resume, hp, hh]
    · have hb : s.saved_target_bed > 0 ∧
          |env.bed_whole - s.saved_target_bed| > cfg.temp_bed_window := by
        rcases hout with h | h
        · exact absurd h hh
        · exact h
      simp [m1125_poll_resume, hp, hh, hb]
  · intro h2
    have hchar := poll_resume_finalize_char cfg env s h2
    have hpend : (m1125_poll_resume cfg env s).1.resume_pending = false := by
      rw [hchar, finalize_actions_resume_pending, finalize_position_resume_pending]
    refine ⟨hpend, ?_, ?_, ?_⟩
    · rw [hchar]
      exact finalize_actions_pause_active _
    · rw [hchar, finalize_actions_jobTimerStarts, finalize_position_jobTimerStarts]
    · exact poll_resume_not_pending cfg' env' _ hpend
  · intro hflag
    unfold m1125_poll_resume
    split_ifs
    · rfl
    · rfl
    · rfl
    · rw [finalize_actions_moves,
        finalize_position_events_no_flag { s with resume_pending := false } hflag]

theorem m1125_resume_gating_witness :
    ∃ s : Sys, s.resume_pending = true ∧
      m1125_poll_resume ⟨300, 30, 1, 1, 0, 0⟩ ⟨25, 25⟩ s = (s, false) := by
  refine ⟨{ saved_position := default, have_saved_position := true,
            pause_active := true, heaters_disabled_by_timeout := false,
            timeout_pending := false, timeout_deadline_ms := 0,
            timeout_old_remaining_at_continue := 0, continue_pressed := false,
            resume_pending := true, resume_do_sd := true, resume_do_host := false,
            resume_feedrate := 50, suppress_auto_job_timer := true,
            saved_commands := [], hotend_idle := LocalIdleTimer.reset,
            bed_idle := LocalIdleTimer.reset, saved_target_hotend := 200,
            saved_target_bed := 0, printSource := Source.sd,
            card := ⟨true, false, 0⟩, queue := ⟨0, 0, 0, []⟩,
            hotend_target := 200, bed_target := 0, pos := default,
            suppress_popup_pause_response := true, events := [] }, rfl, ?_⟩
  exact (m1125_resume_gating ⟨300, 30, 1, 1, 0, 0⟩ ⟨300, 30, 1, 1, 0, 0⟩
      ⟨25, 25⟩ ⟨25, 25⟩ _).1 rfl (Or.inl (by norm_num))

namespace M1125

theorem check_not_active (cfg : Config) (env : Env) (now : Nat) (s : Sys)
    (h : s.pause_active = false) :
    M1125_Check cfg env now s = (s, false) := by
  simp [M1125_Check, h]

theorem pollMany_not_active (cfg : Config) (env : Env) (ts : List Nat) (s : Sys)
    (h : s.pause_active = false) :
    pollMany cfg env ts s = s := by
  induction ts with
  | nil => rfl
  | cons t ts ih =>
    show pollMany cfg env ts (M1125_Check cfg env t s).1 = s
    rw [check_not_active cfg env t s h]
    exact ih

end M1125

/-- C6 (amended): a resume request while no pause episode is recorded issues
no motion and performs no resume actions then or on any later poll: the event
log, position, queue, card, and print source are unchanged, the pause-active
flag stays clear, and every later sequence of watchdog polls leaves the state
fixed; the request does, however, set the resume-pending flag. -/
theorem m1125_resume_without_episode_no_actions (cfg cfg' : Config) (env env' : Env)
    (now : Nat) (feed : Option Rat) (s : Sys) (h : s.pause_active = false) :
    (M1125_R cfg env now feed s).events = s.events ∧
    (M1125_R cfg env now feed s).pos = s.pos ∧
    (M1125_R cfg env now feed s).queue = s.queue ∧
    (M1125_R cfg env now feed s).card = s.card ∧
    (M1125_R cfg env now feed s).printSource = s.printSource ∧
    (M1125_R cfg env now feed s).pause_active = false ∧
    (M1125_R cfg env now feed s).resume_pending = true ∧
    ∀ ts : List Nat,
      pollMany cfg' env' ts (M1125_R cfg env now feed s) = M1125_R cfg env now feed s := by
  have key : (M1125_R cfg env now feed s).events = s.events ∧
      (M1125_R cfg env now feed s).pos = s.pos ∧
      (M1125_R cfg env now feed s).queue = s.queue ∧
      (M1125_R cfg env now feed s).card = s.card ∧
      (M1125_R cfg env now feed s).printSource = s.printSource ∧
      (M1125_R cfg env now feed s).pause_active = false ∧
      (M1125_R cfg env now feed s).resume_pending = true := by
    cases feed <;> simp [M1125_R, m1125_apply_feed, M1125_Check, h]
  refine ⟨key.1, key.2.1, key.2.2.1, key.2.2.2.1, key.2.2.2.2.1, key.2.2.2.2.2.1,
    key.2.2.2.2.2.2, ?_⟩
  intro ts
  exact pollMany_not_active cfg' env' ts _ key.2.2.2.2.2.1

/-- C6 (counterexample): a resume request with no recorded episode is not a
mutation-free no-op: from a fully clean controller state it durably flips the
resume-pending flag from `false` to `true`. -/
theorem m1125_resume_without_episode_mutates :
    (M1125_R ⟨300, 30, 1, 1, 0, 0⟩ ⟨25, 25⟩ 0 none
        { saved_position := default, have_saved_position := false,
          pause_active := false, heaters_disabled_by_timeout := false,
          timeout_pending := false, timeout_deadline_ms := 0,
          timeout_old_remaining_at_continue := 0, continue_pressed := false,
          resume_pending := false, resume_do_sd := false, resume_do_host := false,
          resume_feedrate := 50, suppress_auto_job_timer := false,
          saved_commands := [], hotend_idle := LocalIdleTimer.reset,
          bed_idle := LocalIdleTimer.reset, saved_target_hotend := 0,
          saved_target_bed := 0, printSource := Source.none,
          card := ⟨false, false, 0⟩, queue := ⟨0, 0, 0, []⟩,
          hotend_target := 0, bed_target := 0, pos := default,
          suppress_popup_pause_response := false,
          events := [] }).resume_pending = true ∧
    ({ saved_position := default, have_saved_position := false,
       pause_active := false, heaters_disabled_by_timeout := false,
       timeout_pending := false, timeout_deadline_ms := 0,
       timeout_old_remaining_at_continue := 0, continue_pressed := false,
       resume_pending := false, resume_do_sd := false, resume_do_host := false,
       resume_feedrate := 50, suppress_auto_job_timer := false,
       saved_commands := [], hotend_idle := LocalIdleTimer.reset,
       bed_idle := LocalIdleTimer.reset, saved_target_hotend := 0,
       saved_target_bed := 0, printSource := Source.none,
       card := ⟨false, false, 0⟩, queue := ⟨0, 0, 0, []⟩,
       hotend_target := 0, bed_target := 0, pos := default,
       suppress_popup_pause_response := false,
       events := [] } : Sys).resume_pending = false := by
  constructor
  · rfl
  · rfl

theorem m1125_resume_without_episode_no_actions_witness :
    (M1125_R ⟨300, 30, 1, 1, 0, 0⟩ ⟨25, 25⟩ 0 none
        { saved_position := default, have_saved_position := false,
          pause_active := false, heaters_disabled_by_timeout := false,
          timeout_pending := false, timeout_deadline_ms := 0,
          timeout_old_remaining_at_continue := 0, continue_pressed := false,
          resume_pending := false, resume_do_sd := false, resume_do_host := false,
          resume_feedrate := 50, suppress_auto_job_timer := false,
          saved_commands := [], hotend_idle := LocalIdleTimer.reset,
          bed_idle := LocalIdleTimer.reset, saved_target_hotend := 0,
          saved_target_bed := 0, printSource := Source.none,
          card := ⟨false, false, 0⟩, queue := ⟨0, 0, 0, []⟩,
          hotend_target := 0, bed_target := 0, pos := default,
          suppress_popup_pause_response := false, events := [] }).events = [] :=
  (m1125_resume_without_episode_no_actions ⟨300, 30, 1, 1, 0, 0⟩ ⟨300, 30, 1, 1, 0, 0⟩
    ⟨25, 25⟩ ⟨25, 25⟩ 0 none _ rfl).1

namespace M1125

theorem finalize_position_prompts (s : Sys) :
    countPrompts (m1125_finalize_position s).events = countPrompts s.events := by
  simp only [m1125_finalize_position]
  split_ifs <;>
    simp [countPrompts, List.countP_append, List.countP_cons, Event.isPrompt]

theorem finalize_actions_prompts (s : Sys) :
    countPrompts (m1125_finalize_actions s).events = countPrompts s.events := by
  simp only [m1125_finalize_actions]
  split_ifs <;>
    simp [countPrompts, List.countP_append, List.countP_cons, Event.isPrompt]

theorem finalize_position_disables (s : Sys) :
    countDisables (m1125_finalize_position s).events = countDisables s.events := by
  simp only [m1125_finalize_position]
  split_ifs <;>
    simp [countDisables, List.countP_append, List.countP_cons, Event.isDisable]

theorem finalize_actions_disables (s : Sys) :
    countDisables (m1125_finalize_actions s).events = countDisables s.events := by
  simp only [m1125_finalize_actions]
  split_ifs <;>
    simp [countDisables, List.countP_append, List.countP_cons, Event.isDisable]

theorem poll_resume_prompts (cfg : Config) (env : Env) (s : Sys) :
    countPrompts (m1125_poll_resume cfg env s).1.events = countPrompts s.events := by
  unfold m1125_poll_resume
  split_ifs
  · rfl
  · rfl
  · rfl
  · rw [finalize_actions_prompts, finalize_position_prompts]

theorem poll_resume_disables (cfg : Config) (env : Env) (s : Sys) :
    countDisables (m1125_poll_resume cfg env s).1.events = countDisables s.events := by
  unfold m1125_poll_resume
  split_ifs
  · rfl
  · rfl
  · rfl
  · rw [finalize_actions_disables, finalize_position_disables]

end M1125

namespace M1125

theorem countPrompts_append_one (l : List Event) (e : Event) :
    countPrompts (l ++ [e]) = countPrompts l + (if e.isPrompt then 1 else 0) := by
  simp [countPrompts, List.countP_append, List.countP_cons]

theorem countDisables_append_one (l : List Event) (e : Event) :
    countDisables (l ++ [e]) = countDisables l + (if e.isDisable then 1 else 0) := by
  simp [countDisables, List.countP_append, List.countP_cons]

theorem check_no_reprompt (cfg : Config) (env : Env) (now : Nat) (s : Sys)
    (h : s.timeout_pending = true ∨ s.heaters_disabled_by_timeout = true) :
    countPrompts (M1125_Check cfg env now s).1.events = countPrompts s.events := by
  by_cases hpa : s.pause_active
  · rcases h with h | h <;>
      · simp only [M1125_Check, hpa, h]
        split_ifs <;>
          simp_all [poll_resume_prompts, countPrompts_append_one, Event.isPrompt,
            Event.isDisable]
  · simp [M1125_Check, hpa]

theorem check_no_redisable (cfg : Config) (env : Env) (now : Nat) (s : Sys)
    (h : s.heaters_disabled_by_timeout = true) :
    countDisables (M1125_Check cfg env now s).1.events = countDisables s.events := by
  by_cases hpa : s.pause_active
  · simp only [M1125_Check, hpa, h]
    split_ifs <;>
      simp_all [poll_resume_disables, countDisables_append_one, Event.isPrompt,
        Event.isDisable]
  · simp [M1125_Check, hpa]

end M1125

namespace M1125

theorem check_prompt_fires (cfg : Config) (env : Env) (now : Nat) (s : Sys)
    (hpa : s.pause_active = true) (hpend : s.timeout_pending = false)
    (hdis : s.heaters_disabled_by_timeout = false)
    (hto : ((s.hotend_idle.update now).timed_out
            || (s.bed_idle.update now).timed_out) = true) :
    countPrompts (M1125_Check cfg env now s).1.events = countPrompts s.events + 1 ∧
    (M1125_Check cfg env now s).1.timeout_pending = true ∧
    (M1125_Check cfg env now s).1.timeout_deadline_ms
      = now + cfg.timeout_grace_seconds * 1000 := by
  simp [M1125_Check, hpa, hpend, hdis, hto, countPrompts_append_one, Event.isPrompt]

theorem check_disable_fires (cfg : Config) (env : Env) (now : Nat) (s : Sys)
    (hpa : s.pause_active = true) (hpend : s.timeout_pending = true)
    (hdis : s.heaters_disabled_by_timeout = false)
    (hdl : s.timeout_deadline_ms ≤ now) (hrp : s.resume_pending = false) :
    countDisables (M1125_Check cfg env now s).1.events = countDisables s.events + 1 ∧
    (M1125_Check cfg env now s).1.heaters_disabled_by_timeout = true ∧
    (M1125_Check cfg env now s).1.timeout_pending = false ∧
    (M1125_Check cfg env now s).2 = true := by
  simp [M1125_Check, hpa, hpend, hdis, hdl, hrp, poll_resume_not_pending,
    countDisables_append_one, Event.isDisable]

end M1125

/-- C4: watchdog staging: once a prompt has been posted (or heaters already
disabled) further polls never re-prompt; once heaters are disabled further
polls never disable again; the first poll after timer expiry posts exactly
one prompt and arms the grace state; an elapsed grace deadline disables the
heaters exactly once; and in the concrete 300 s / 30 s scenario the whole
poll trace emits exactly one prompt and exactly one disable. -/
theorem m1125_watchdog_stages_once (cfg : Config) (env : Env) (now : Nat) (s : Sys) :
    (s.timeout_pending = true ∨ s.heaters_disabled_by_timeout = true →
      countPrompts (M1125_Check cfg env now s).1.events = countPrompts s.events) ∧
    (s.heaters_disabled_by_timeout = true →
      countDisables (M1125_Check cfg env now s).1.events = countDisables s.events) ∧
    (s.pause_active = true → s.timeout_pending = false →
      s.heaters_disabled_by_timeout = false →
      ((s.hotend_idle.update now).timed_out || (s.bed_idle.update now).timed_out) = true →
      countPrompts (M1125_Check cfg env now s).1.events = countPrompts s.events + 1 ∧
      (M1125_Check cfg env now s).1.timeout_pending = true ∧
      (M1125_Check cfg env now s).1.timeout_deadline_ms
        = now + cfg.timeout_grace_seconds * 1000) ∧
    (s.pause_active = true → s.timeout_pending = true →
      s.heaters_disabled_by_timeout = false → s.timeout_deadline_ms ≤ now →
      s.resume_pending = false →
      countDisables (M1125_Check cfg env now s).1.events = countDisables s.events + 1 ∧
      (M1125_Check cfg env now s).1.heaters_disabled_by_timeout = true) ∧
    (countPrompts (pollMany demoConfig demoEnv [300000, 300001, 330001, 330002, 400000]
        (M1125_P demoConfig 0 demoStart)).events = 1 ∧
     countDisables (pollMany demoConfig demoEnv [300000, 300001, 330001, 330002, 400000]
        (M1125_P demoConfig 0 demoStart)).events = 1) := by
  refine ⟨check_no_reprompt cfg env now s, check_no_redisable cfg env now s, ?_, ?_, ?_⟩
  · intro hpa hpend hdis hto
    exact check_prompt_fires cfg env now s hpa hpend hdis hto
  · intro hpa hpend hdis hdl hrp
    exact ⟨(check_disable_fires cfg env now s hpa hpend hdis hdl hrp).1,
      (check_disable_fires cfg env now s hpa hpend hdis hdl hrp).2.1⟩
  · exact ⟨rfl, rfl⟩

theorem m1125_watchdog_stages_once_witness :
    countPrompts (M1125_Check demoConfig demoEnv 300001 demoPrompted).1.events
      = countPrompts demoPrompted.events :=
  (m1125_watchdog_stages_once demoConfig demoEnv 300001 demoPrompted).1 (Or.inl rfl)

namespace M1125

theorem filter_map_range_succ {α : Type} (n i : Nat) (f : Nat → α) (p : α → Bool) :
    ((List.range (n + 1)).map fun j => f (i + j)).filter p
      = (if p (f i) then [f i] else [])
        ++ ((List.range n).map fun j => f (i + 1 + j)).filter p := by
  rw [List.range_succ_eq_map, List.map_cons, List.map_map]
  have hc : ((fun j => f (i + j)) ∘ Nat.succ) = fun j => f (i + 1 + j) := by
    funext j
    simp only [Function.comp]
    congr 1
    omega
  rw [hc, List.filter_cons]
  by_cases hp : p (f (i + 0)) <;> simp_all

theorem save_loop_spec (cmds : List CommandLine) (start : Nat) :
    ∀ (fuel i : Nat) (acc : List CommandLine), acc.length + fuel ≤ BUFSIZE →
      m1125_save_loop cmds start i fuel acc =
        acc ++ ((List.range fuel).map fun j =>
            cmds.getD (m1125_wrap start (i + j)) default).filter
          (fun c => !m1125_should_skip_saved_command c.buffer) := by
  intro fuel
  induction fuel with
  | zero =>
    intro i acc h
    simp [m1125_save_loop]
  | succ n ih =>
    intro i acc h
    have hunf : m1125_save_loop cmds start i (n + 1) acc
        = m1125_save_loop cmds start (i + 1) n
            (if m1125_should_skip_saved_command
                (cmds.getD (m1125_wrap start i) default).buffer
             then acc
             else if acc.length < BUFSIZE
             then acc ++ [cmds.getD (m1125_wrap start i) default] else acc) := rfl
    rw [hunf,
      filter_map_range_succ n i (fun k => cmds.getD (m1125_wrap start k) default)]
    by_cases hskip : m1125_should_skip_saved_command
        (cmds.getD (m1125_wrap start i) default).buffer
    · rw [if_pos hskip, ih (i + 1) acc (by omega)]
      have hfalse : (!m1125_should_skip_saved_command
          (cmds.getD (m1125_wrap start i) default).buffer) = false := by
        rw [hskip]
        rfl
      rw [hfalse]
      simp only [Bool.false_eq_true, if_false, List.nil_append]
    · have hlt : acc.length < BUFSIZE := by
        have h8 : BUFSIZE = 8 := rfl
        omega
      have hb : m1125_should_skip_saved_command
          (cmds.getD (m1125_wrap start i) default).buffer = false :=
        Bool.eq_false_iff.mpr hskip
      have htrue : (!m1125_should_skip_saved_command
          (cmds.getD (m1125_wrap start i) default).buffer) = true := by
        rw [hb]
        rfl
      rw [if_neg hskip, if_pos hlt,
        ih (i + 1) (acc ++ [cmds.getD (m1125_wrap start i) default])
          (by rw [List.length_append]; simpa using by omega)]
      rw [htrue]
      simp only [if_true, List.append_assoc, List.singleton_append]

end M1125

namespace M1125

theorem m1125_wrap_eq_mod (start i : Nat) (hs : start < BUFSIZE) (hi : i < BUFSIZE) :
    m1125_wrap start i = (start + i) % BUFSIZE := by
  have h8 : BUFSIZE = 8 := rfl
  unfold m1125_wrap
  rw [h8] at hs hi ⊢
  split_ifs <;> omega

theorem snapshot_eq_filter_toList (rb : RingBuffer)
    (hr : rb.index_r < BUFSIZE) (hlen : rb.length ≤ BUFSIZE) :
    m1125_save_loop rb.commands rb.index_r 0 rb.length [] =
      rb.toList.filter (fun c => !m1125_should_skip_saved_command c.buffer) := by
  rw [save_loop_spec rb.commands rb.index_r rb.length 0 [] (by simpa using hlen)]
  unfold RingBuffer.toList
  rw [List.nil_append]
  congr 1
  apply List.map_congr_left
  intro j hj
  rw [List.mem_range] at hj
  rw [Nat.zero_add]
  rw [m1125_wrap_eq_mod rb.index_r j hr]
  have h8 : BUFSIZE = 8 := rfl
  omega

theorem restore_loop_toList :
    ∀ (l : List CommandLine) (k : Nat) (c8 : List CommandLine),
      c8.length = BUFSIZE → k + l.length ≤ BUFSIZE →
      (m1125_restore_loop ⟨k, 0, k % BUFSIZE, c8⟩ l).toList =
        (List.range k).map (fun i => c8.getD (i % BUFSIZE) default) ++ l := by
  intro l
  induction l with
  | nil =>
    intro k c8 hc8 hk
    simp [m1125_restore_loop, RingBuffer.toList]
  | cons c rest ih =>
    intro k c8 hc8 hk
    have h8 : BUFSIZE = 8 := rfl
    have hk8 : k < BUFSIZE := by
      rw [h8] at hk ⊢
      simp only [List.length_cons] at hk
      omega
    have hkm : k % BUFSIZE = k := Nat.mod_eq_of_lt hk8
    have hstep : m1125_restore_loop ⟨k, 0, k % BUFSIZE, c8⟩ (c :: rest)
        = m1125_restore_loop ⟨k + 1, 0, (k + 1) % BUFSIZE, c8.set (k % BUFSIZE) c⟩
            rest := by
      show m1125_restore_loop
          (RingBuffer.advance_w ⟨k, 0, k % BUFSIZE, c8.set (k % BUFSIZE) c⟩) rest = _
      congr 1
      unfold RingBuffer.advance_w
      simp only [hkm]
      congr 1
      rw [h8]
      split_ifs <;> omega
    rw [hstep,
      ih (k + 1) (c8.set (k % BUFSIZE) c) (by simp [hc8])
        (by simp only [List.length_cons] at hk; omega)]
    rw [List.range_succ, List.map_append]
    rw [List.append_assoc]
    congr 1
    · apply List.map_congr_left
      intro j hj
      rw [List.mem_range] at hj
      have hj8 : j % BUFSIZE = j := Nat.mod_eq_of_lt (by rw [h8] at hk8 ⊢; omega)
      rw [hj8, hkm]
      rw [List.getD_eq_getElem?_getD, List.getD_eq_getElem?_getD,
        List.getElem?_set_ne (by omega)]
    · simp only [List.map_cons, List.map_nil, List.singleton_append]
      congr 1
      rw [hkm, List.getD_eq_getElem?_getD,
        List.getElem?_set_eq_of_lt c (by rw [hc8]; exact hk8)]
      rfl

end M1125

namespace M1125

theorem finalize_position_queue (s : Sys) :
    (m1125_finalize_position s).queue = s.queue := by
  simp only [m1125_finalize_position]
  split_ifs <;> rfl

theorem finalize_position_card (s : Sys) :
    (m1125_finalize_position s).card = s.card := by
  simp only [m1125_finalize_position]
  split_ifs <;> rfl

theorem finalize_position_saved_commands (s : Sys) :
    (m1125_finalize_position s).saved_commands = s.saved_commands := by
  simp only [m1125_finalize_position]
  split_ifs <;> rfl

theorem finalize_position_resume_do_sd (s : Sys) :
    (m1125_finalize_position s).resume_do_sd = s.resume_do_sd := by
  simp only [m1125_finalize_position]
  split_ifs <;> rfl

theorem finalize_actions_queue (s : Sys) (hsd : s.resume_do_sd = true)
    (hsp : s.card.stillPrinting = false) :
    (m1125_finalize_actions s).queue =
      (if s.saved_commands.length ≠ 0 then m1125_restore_loop s.queue s.saved_commands
       else s.queue) := by
  simp only [m1125_finalize_actions, hsd, hsp]
  split_ifs <;> simp_all

theorem toList_clear (rb : RingBuffer) : (RingBuffer.clear rb).toList = [] := by
  simp [RingBuffer.clear, RingBuffer.toList]

theorem toList_length (rb : RingBuffer) : rb.toList.length = rb.length := by
  simp [RingBuffer.toList]

end M1125

/-- C2: queue round-trip: for any valid ring-buffer contents at pause time,
the commands present in the queue after a completed onboard-media resume
(pause immediately followed by resume, with heater targets already satisfied)
equal the original FIFO sequence minus the filtered entries, in the original
order. -/
theorem m1125_queue_round_trip (cfg : Config) (env : Env) (now now' : Nat) (s : Sys)
    (hpa : s.pause_active = false) (htp : s.timeout_pending = false)
    (hopen : s.card.fileOpen = true) (hprint : s.card.stillPrinting = true)
    (hr : s.queue.index_r < BUFSIZE) (hlen : s.queue.length ≤ BUFSIZE)
    (hc8 : s.queue.commands.length = BUFSIZE)
    (hh : ¬(s.hotend_target > 0 ∧ |env.hotend_whole - s.hotend_target| > cfg.temp_window))
    (hb : ¬(s.bed_target > 0 ∧ |env.bed_whole - s.bed_target| > cfg.temp_bed_window)) :
    (M1125_R cfg env now' none (M1125_P cfg now s)).queue.toList =
      s.queue.toList.filter (fun c => !m1125_should_skip_saved_command c.buffer) := by
  have hsd : (s.card.fileOpen && s.card.stillPrinting) = true := by
    rw [hopen, hprint]
    rfl
  set sP := M1125_P cfg now s with hsPdef
  have key : sP.pause_active = true ∧ sP.timeout_pending = false ∧
      sP.printSource = Source.sd ∧ sP.card.stillPrinting = false ∧
      sP.saved_target_hotend = s.hotend_target ∧ sP.saved_target_bed = s.bed_target ∧
      sP.saved_commands
        = m1125_save_loop s.queue.commands s.queue.index_r 0 s.queue.length [] ∧
      sP.queue = RingBuffer.clear s.queue := by
    rw [hsPdef]
    simp [M1125_P, m1125_pause_snapshot, m1125_pause_park_moves, m1125_pause_arm,
      hsd, hpa, htp]
  have hRdef : M1125_R cfg env now' none sP
      = (M1125_Check cfg env now'
          { sP with
          hotend_idle := LocalIdleTimer.reset,
          bed_idle := LocalIdleTimer.reset,
          hotend_target := if sP.saved_target_hotend > 0 then sP.saved_target_hotend
                           else sP.hotend_target,
          bed_target := if sP.saved_target_bed > 0 then sP.saved_target_bed
                        else sP.bed_target,
          resume_pending := true,
          resume_do_sd := sP.printSource = Source.sd,
          resume_do_host := sP.printSource = Source.host }).1 := rfl
  have hcheck : M1125_Check cfg env now'
      { sP with
          hotend_idle := LocalIdleTimer.reset,
          bed_idle := LocalIdleTimer.reset,
          hotend_target := if sP.saved_target_hotend > 0 then sP.saved_target_hotend
                           else sP.hotend_target,
          bed_target := if sP.saved_target_bed > 0 then sP.saved_target_bed
                        else sP.bed_target,
          resume_pending := true,
          resume_do_sd := sP.printSource = Source.sd,
          resume_do_host := sP.printSource = Source.host }
      = ((m1125_poll_resume cfg env
          { sP with
          hotend_idle := LocalIdleTimer.reset,
          bed_idle := LocalIdleTimer.reset,
          hotend_target := if sP.saved_target_hotend > 0 then sP.saved_target_hotend
                           else sP.hotend_target,
          bed_target := if sP.saved_target_bed > 0 then sP.saved_target_bed
                        else sP.bed_target,
          resume_pending := true,
          resume_do_sd := sP.printSource = Source.sd,
          resume_do_host := sP.printSource = Source.host }).1, false) := by
    simp [M1125_Check, key.1, key.2.1, LocalIdleTimer.update, LocalIdleTimer.reset]
  have hpoll : m1125_poll_resume cfg env
      { sP with
          hotend_idle := LocalIdleTimer.reset,
          bed_idle := LocalIdleTimer.reset,
          hotend_target := if sP.saved_target_hotend > 0 then sP.saved_target_hotend
                           else sP.hotend_target,
          bed_target := if sP.saved_target_bed > 0 then sP.saved_target_bed
                        else sP.bed_target,
          resume_pending := true,
          resume_do_sd := sP.printSource = Source.sd,
          resume_do_host := sP.printSource = Source.host }
      = (m1125_finalize_actions (m1125_finalize_position
          { sP with
          hotend_idle := LocalIdleTimer.reset,
          bed_idle := LocalIdleTimer.reset,
          hotend_target := if sP.saved_target_hotend > 0 then sP.saved_target_hotend
                           else sP.hotend_target,
          bed_target := if sP.saved_target_bed > 0 then sP.saved_target_bed
                        else sP.bed_target,
          resume_pending := false,
          resume_do_sd := sP.printSource = Source.sd,
          resume_do_host := sP.printSource = Source.host }), true) := by
    simp [m1125_poll_resume, key.2.2.2.2.1, key.2.2.2.2.2.1, hh, hb]
  have hfinal : M1125_R cfg env now' none sP
      = m1125_finalize_actions (m1125_finalize_position
          { sP with
          hotend_idle := LocalIdleTimer.reset,
          bed_idle := LocalIdleTimer.reset,
          hotend_target := if sP.saved_target_hotend > 0 then sP.saved_target_hotend
                           else sP.hotend_target,
          bed_target := if sP.saved_target_bed > 0 then sP.saved_target_bed
                        else sP.bed_target,
          resume_pending := false,
          resume_do_sd := sP.printSource = Source.sd,
          resume_do_host := sP.printSource = Source.host }) := by
    rw [hRdef, hcheck, hpoll]
  have hfp_sd : (m1125_finalize_position
      { sP with
          hotend_idle := LocalIdleTimer.reset,
          bed_idle := LocalIdleTimer.reset,
          hotend_target := if sP.saved_target_hotend > 0 then sP.saved_target_hotend
                           else sP.hotend_target,
          bed_target := if sP.saved_target_bed > 0 then sP.saved_target_bed
                        else sP.bed_target,
          resume_pending := false,
          resume_do_sd := sP.printSource = Source.sd,
          resume_do_host := sP.printSource = Source.host }).resume_do_sd = true := by
    rw [finalize_position_resume_do_sd]
    show (decide (sP.printSource = Source.sd)) = true
    rw [key.2.2.1]
    rfl
  have hfp_sp : (m1125_finalize_position
      { sP with
          hotend_idle := LocalIdleTimer.reset,
          bed_idle := LocalIdleTimer.reset,
          hotend_target := if sP.saved_target_hotend > 0 then sP.saved_target_hotend
                           else sP.hotend_target,
          bed_target := if sP.saved_target_bed > 0 then sP.saved_target_bed
                        else sP.bed_target,
          resume_pending := false,
          resume_do_sd := sP.printSource = Source.sd,
          resume_do_host := sP.printSource = Source.host }).card.stillPrinting = false := by
    rw [finalize_position_card]
    show sP.card.stillPrinting = false
    exact key.2.2.2.1
  have hqueue : (m1125_finalize_actions (m1125_finalize_position
      { sP with
          hotend_idle := LocalIdleTimer.reset,
          bed_idle := LocalIdleTimer.reset,
          hotend_target := if sP.saved_target_hotend > 0 then sP.saved_target_hotend
                           else sP.hotend_target,
          bed_target := if sP.saved_target_bed > 0 then sP.saved_target_bed
                        else sP.bed_target,
          resume_pending := false,
          resume_do_sd := sP.printSource = Source.sd,
          resume_do_host := sP.printSource = Source.host })).queue
      = (if sP.saved_commands.length ≠ 0
         then m1125_restore_loop (RingBuffer.clear s.queue) sP.saved_commands
         else RingBuffer.clear s.queue) := by
    rw [finalize_actions_queue _ hfp_sd hfp_sp, finalize_position_saved_commands,
      finalize_position_queue]
    show (if sP.saved_commands.length ≠ 0
          then m1125_restore_loop sP.queue sP.saved_commands else sP.queue) = _
    rw [key.2.2.2.2.2.2.2]
  have hsavedEq : sP.saved_commands
      = s.queue.toList.filter (fun c => !m1125_should_skip_saved_command c.buffer) := by
    rw [key.2.2.2.2.2.2.1, snapshot_eq_filter_toList s.queue hr hlen]
  have hsavedLen :
      (s.queue.toList.filter
        (fun c => !m1125_should_skip_saved_command c.buffer)).length ≤ BUFSIZE := by
    refine le_trans (List.length_filter_le _ _) ?_
    rw [toList_length]
    exact hlen
  rw [hfinal, hqueue, hsavedEq]
  by_cases hne : (s.queue.toList.filter
      (fun c => !m1125_should_skip_saved_command c.buffer)).length ≠ 0
  · rw [if_pos hne]
    have hclr : RingBuffer.clear s.queue
        = (⟨0, 0, 0 % BUFSIZE, s.queue.commands⟩ : RingBuffer) := rfl
    rw [hclr, restore_loop_toList _ 0 s.queue.commands hc8 (by simpa using hsavedLen)]
    simp
  · rw [if_neg hne]
    rw [toList_clear]
    push_neg at hne
    exact (List.length_eq_zero.mp hne).symm

theorem m1125_queue_round_trip_witness :
    (M1125_R ⟨300, 30, 1, 1, 0, 0⟩ ⟨25, 25⟩ 1 none
        (M1125_P ⟨300, 30, 1, 1, 0, 0⟩ 0
          { saved_position := default, have_saved_position := false,
            pause_active := false, heaters_disabled_by_timeout := false,
            timeout_pending := false, timeout_deadline_ms := 0,
            timeout_old_remaining_at_continue := 0, continue_pressed := false,
            resume_pending := false, resume_do_sd := false, resume_do_host := false,
            resume_feedrate := 50, suppress_auto_job_timer := false,
            saved_commands := [], hotend_idle := LocalIdleTimer.reset,
            bed_idle := LocalIdleTimer.reset, saved_target_hotend := 0,
            saved_target_bed := 0, printSource := Source.none,
            card := ⟨true, true, 77⟩,
            queue := ⟨3, 0, 3,
              [⟨"M600".data, false⟩, ⟨"G1 X5".data, false⟩, ⟨"m1125 p".data, false⟩,
               default, default, default, default, default]⟩,
            hotend_target := 0, bed_target := 0, pos := default,
            suppress_popup_pause_response := false, events := [] })).queue.toList =
      (RingBuffer.toList ⟨3, 0, 3,
          [⟨"M600".data, false⟩, ⟨"G1 X5".data, false⟩, ⟨"m1125 p".data, false⟩,
           default, default, default, default, default]⟩).filter
        (fun c => !m1125_should_skip_saved_command c.buffer) :=
  m1125_queue_round_trip ⟨300, 30, 1, 1, 0, 0⟩ ⟨25, 25⟩ 0 1 _
    rfl rfl rfl rfl (by decide) (by decide) (by decide) (by decide) (by decide)

theorem m1125_duplicate_pause_no_mutation_witness :
    M1125_P demoConfig 5
        { saved_position := ⟨1, 2, 3, 4⟩, have_saved_position := true,
          pause_active := true, heaters_disabled_by_timeout := false,
          timeout_pending := false, timeout_deadline_ms := 0,
          timeout_old_remaining_at_continue := 0, continue_pressed := false,
          resume_pending := false, resume_do_sd := true, resume_do_host := false,
          resume_feedrate := 50, suppress_auto_job_timer := true,
          saved_commands := [⟨"G1 X5".data, false⟩],
          hotend_idle := LocalIdleTimer.start 0 300000,
          bed_idle := LocalIdleTimer.start 0 300000, saved_target_hotend := 200,
          saved_target_bed := 60, printSource := Source.sd,
          card := ⟨true, false, 42⟩, queue := ⟨0, 0, 0, []⟩,
          hotend_target := 200, bed_target := 60, pos := ⟨5, 5, 10, 400⟩,
          suppress_popup_pause_response := true, events := [] }
      = { saved_position := ⟨1, 2, 3, 4⟩, have_saved_position := true,
          pause_active := true, heaters_disabled_by_timeout := false,
          timeout_pending := false, timeout_deadline_ms := 0,
          timeout_old_remaining_at_continue := 0, continue_pressed := false,
          resume_pending := false, resume_do_sd := true, resume_do_host := false,
          resume_feedrate := 50, suppress_auto_job_timer := true,
          saved_commands := [⟨"G1 X5".data, false⟩],
          hotend_idle := LocalIdleTimer.start 0 300000,
          bed_idle := LocalIdleTimer.start 0 300000, saved_target_hotend := 200,
          saved_target_bed := 60, printSource := Source.sd,
          card := ⟨true, false, 42⟩, queue := ⟨0, 0, 0, []⟩,
          hotend_target := 200, bed_target := 60, pos := ⟨5, 5, 10, 400⟩,
          suppress_popup_pause_response := true, events := [] } :=
  (m1125_duplicate_pause_no_mutation demoConfig 5 _ rfl).1

/-- C5 (counterexample): in the concrete scenario (idle timeout 300 s, grace
30 s, prompt at t=300 s, Continue at t=329 s) the new grace deadline is the
630 s point — the 330 s grace deadline extended by 300 s — and not the 600 s
point that "the original 300 s point plus 300 s" would give. -/
theorem m1125_continue_extends_from_grace_deadline :
    (M1125_TimeoutContinue demoConfig 329000 demoPrompted).timeout_deadline_ms
        = 630000 ∧
    ¬((M1125_TimeoutContinue demoConfig 329000 demoPrompted).timeout_deadline_ms
        = 300000 + 300000) := by
  constructor
  · rfl
  · intro h
    have h' : (630000 : Nat) = 600000 := by
      calc (630000 : Nat)
          = (M1125_TimeoutContinue demoConfig 329000 demoPrompted).timeout_deadline_ms :=
            rfl
        _ = 300000 + 300000 := h
    exact absurd h' (by decide)

/-- C5 (amended): Continue while the grace window is pending extends the
grace deadline additively by one full idle timeout (so in the concrete
scenario the new deadline is the 330 s grace point plus 300 s, i.e. 630 s),
stays grace-pending, emits nothing, and leaves the disabled flag unchanged;
polling up to just before the new deadline never disables the heaters. -/
theorem m1125_continue_extends_deadline (cfg : Config) (now : Nat) (s : Sys)
    (h : s.timeout_pending = true) :
    (M1125_TimeoutContinue cfg now s).timeout_deadline_ms
        = s.timeout_deadline_ms + cfg.pause_park_nozzle_timeout * 1000 ∧
    (M1125_TimeoutContinue cfg now s).timeout_pending = true ∧
    (M1125_TimeoutContinue cfg now s).heaters_disabled_by_timeout
        = s.heaters_disabled_by_timeout ∧
    (M1125_TimeoutContinue cfg now s).events = s.events ∧
    (M1125_TimeoutContinue demoConfig 329000 demoPrompted).timeout_deadline_ms
        = 330000 + 300000 ∧
    countDisables (pollMany demoConfig demoEnv [330001, 400000, 629999]
        (M1125_TimeoutContinue demoConfig 329000 demoPrompted)).events = 0 := by
  refine ⟨?_, ?_, ?_, ?_, rfl, rfl⟩ <;> simp [M1125_TimeoutContinue, h]

theorem m1125_continue_extends_deadline_witness :
    (M1125_TimeoutContinue demoConfig 329000 demoPrompted).timeout_pending = true :=
  (m1125_continue_extends_deadline demoConfig 329000 demoPrompted rfl).2.1
